import Mathlib

/-!
Shallow embedding of `pyrsa/vis/icon.py` (class `Icon`): the radial-mask
math, the image recompute pipeline, the `set` state transition and the
`plot` placement logic, together with theorems settling the spec claims.

Modelling conventions:
* Python floats are exact rationals (`ℚ`) in configuration values and pixel
  data supplied by callers; the float arithmetic of the pipeline (sqrt, cos,
  division) is idealized as real arithmetic (`ℝ`), and the `uint8`
  quantization steps of PIL conversion are idealized away (channel values are
  kept on their [0,1] scale).
* `np.empty` (an uninitialized buffer) is modelled by an explicit `init`
  value threaded through `maskFill`; the pipeline instantiates it with `0`.
* IEEE NaN (which arises in the source as `0/0` when an image axis has a
  single pixel, making `np.max(np.abs(x)) == 0`) is modelled by `Option ℝ`:
  `rGrid` returns `none` exactly when either normalization denominator is
  zero, and every comparison against `none` is false, as NaN comparisons are.
-/

/-! ### Radial mask math (source lines 129-147) -/

/-- Source: `x = np.arange(im.size[0]) - middle[0] + 0.5` with
`middle = np.array(im.size) / 2`; the (exact, rational) pixel-center
coordinate of index `i` on an axis of `n` pixels. -/
def xcoord (n i : ℕ) : ℚ := (i : ℚ) - (n : ℚ) / 2 + 1 / 2

/-- Source: `np.max(np.abs(x))`: the maximum absolute pixel-center
coordinate along an axis of `n` pixels (`np.max` of the mapped list,
with `0` standing for the empty fold base; axes of the images reaching
this code always have `n ≥ 1`). -/
def maxAbsX (n : ℕ) : ℚ :=
  ((List.range n).map fun i => |xcoord n i|).foldr max 0

/-- Source: `x = x / np.max(np.abs(x))` (and likewise `y`), then
`r = np.sqrt(xx ** 2 + yy ** 2)`: the normalized radius of pixel
`(i, j)` in a `w × h` image, assuming the normalization denominators
are nonzero. -/
noncomputable def rVal (w h i j : ℕ) : ℝ :=
  Real.sqrt (((xcoord w i / maxAbsX w : ℚ) : ℝ) ^ 2
    + ((xcoord h j / maxAbsX h : ℚ) : ℝ) ^ 2)

/-- The radius grid of the source, with NaN tracked explicitly: when either
axis has `np.max(np.abs(.)) == 0` the source's division yields NaN (0/0)
for every entry of `r`; this is the `none` case. -/
noncomputable def rGrid (w h i j : ℕ) : Option ℝ :=
  if maxAbsX w = 0 ∨ maxAbsX h = 0 then none
  else some (rVal w h i j)

/-- Source lines 137-144: `alpha = np.empty(r.shape)` followed by the three
masked assignments, in program order
`alpha[r > 1] = 0`, `alpha[r <= circ_cut] = 1`,
`alpha[(r > circ_cut) & (r <= 1)] = 0.5 + 0.5*cos(pi*(r-circ_cut)/(1-circ_cut))`.
Later assignments overwrite earlier ones, hence the reversed nesting of the
conditionals; `init` is the uninitialized buffer content at this pixel, and
a NaN radius (`none`) satisfies none of the comparisons. -/
noncomputable def maskFill (c : ℝ) (rv : Option ℝ) (init : ℝ) : ℝ :=
  match rv with
  | none => init
  | some r =>
    if c < r ∧ r ≤ 1 then 0.5 + 0.5 * Real.cos (Real.pi * (r - c) / (1 - c))
    else if r ≤ c then 1
    else if 1 < r then 0
    else init

/-- Modelled from the spec (for comparison against `maskFill`): the piecewise
mask value the spec describes — `0` when `r > 1`, `1` when `r ≤ c`, and the
raised-cosine taper on `c < r ≤ 1`. -/
noncomputable def maskSpecVal (c r : ℝ) : ℝ :=
  if 1 < r then 0
  else if r ≤ c then 1
  else 0.5 + 0.5 * Real.cos (Real.pi * (r - c) / (1 - c))

/-! ### Images and the recompute pipeline (source lines 105-154) -/

/-- One RGBA pixel; channels on the [0,1] scale, idealized as reals. -/
structure Pix where
  r : ℝ
  g : ℝ
  b : ℝ
  a : ℝ

/-- An RGBA bitmap: dimensions plus a (total) pixel function; index `i`
is the column (x) and `j` the row (y). -/
structure Img where
  width : ℕ
  height : ℕ
  pix : ℕ → ℕ → Pix

/-- An RGB color definition, as supplied by callers (exact rationals). -/
structure Color where
  r : ℚ
  g : ℚ
  b : ℚ
deriving DecidableEq

/-- A colormap: a pure function from a scalar intensity to RGBA,
each on the [0,1] scale. -/
def Cmap : Type := ℚ → ℚ × ℚ × ℚ × ℚ

/-- The numpy dtype of a raw input array, to the granularity the source's
check `self.image.dtype == np.float` needs: `np.float` is the builtin
`float`, i.e. `float64`, so `float32` (also a floating-point dtype) fails
the check, as do the integer dtypes. -/
inductive DType where
  | float64
  | float32
  | int64
  | uint8
deriving DecidableEq

/-- Whether a dtype is a floating-point dtype. This is the spec claim's
notion ("the array is of floating-point type"), used to compare the claim
against the source's `dtype == np.float` check. -/
def DType.isFloating : DType → Bool
  | .float64 => true
  | .float32 => true
  | _ => false

/-- A raw 2D scalar numpy array (the colormap-able input form): a dtype and
a row-major list of rows of exact values. -/
structure NDArr where
  dtype : DType
  rows : List (List ℚ)
deriving DecidableEq

/-- Width of a raw array (length of its first row). -/
def NDArr.w (a : NDArr) : ℕ := (a.rows.head?.getD []).length

/-- Height of a raw array (number of rows). -/
def NDArr.h (a : NDArr) : ℕ := a.rows.length

/-- Scalar value at column `i`, row `j` (0 outside the stored data). -/
def NDArr.val (a : NDArr) (i j : ℕ) : ℚ :=
  (((a.rows.get? j).getD []).get? i).getD 0

/-- Source: `np.any(self.image > 1)`. -/
def anyGT1 (a : NDArr) : Bool :=
  a.rows.any fun row => row.any fun v => 1 < v

/-- Source lines 116-119: the scale heuristic —
`if self.image.dtype == np.float and np.any(self.image > 1): im = self.image / 255`
(`np.float` is `float64`), `else: im = self.image`. -/
def scaleStage (a : NDArr) : NDArr :=
  if a.dtype = DType.float64 ∧ anyGT1 a then
    { a with rows := a.rows.map (List.map fun v => v / 255) }
  else a

/-- Grayscale array to RGBA (source: `PIL.Image.fromarray((im*255).astype(np.uint8))`
then `convert('RGBA')`, with the 255-scale round trip and uint8 quantization
idealized away): each scalar becomes an opaque gray pixel. -/
def grayToImg (a : NDArr) : Img :=
  { width := a.w, height := a.h,
    pix := fun i j =>
      { r := (a.val i j : ℝ), g := (a.val i j : ℝ), b := (a.val i j : ℝ),
        a := 1 } }

/-- Colormapped array to RGBA (source: `cm.get_cmap(self.cmap)(im)` then the
same idealized PIL round trip): each scalar is mapped through the colormap. -/
def cmapToImg (cm : Cmap) (a : NDArr) : Img :=
  { width := a.w, height := a.h,
    pix := fun i j =>
      let q := cm (a.val i j)
      { r := (q.1 : ℝ), g := (q.2.1 : ℝ), b := (q.2.2.1 : ℝ),
        a := (q.2.2.2 : ℝ) } }

/-- The `image` configuration field: a raw numeric array or an already
decoded (PIL) image. -/
inductive ImageInput where
  | ndarray (a : NDArr)
  | pil (im : Img)

/-- Source: `im = im.convert('RGBA')`. Our `Img` is always 4-channel, so the
conversion is the identity (images without alpha are modelled as already
carrying an opaque alpha channel). -/
def convertRGBA (im : Img) : Img := im

/-- Source lines 126-128: `new_size = max(im.width, im.height)` and nearest
resize; PIL's NEAREST samples the source at the center of each target pixel,
`floor((i + 0.5) * w / m)`, written here with natural division. -/
def resizeSquare (im : Img) : Img :=
  let m := max im.width im.height
  { width := m, height := m,
    pix := fun i j =>
      im.pix ((2 * i + 1) * im.width / (2 * m))
             ((2 * j + 1) * im.height / (2 * m)) }

/-- Source line 126: `if self.make_square:` — only a stored `True` is truthy
(the field holds `None`, `False` or `True`). -/
def squareStage (ms : Option Bool) (im : Img) : Img :=
  if ms = some true then resizeSquare im else im

/-- Source lines 129-147: the mask stage. The new alpha is the mask value
multiplied by the existing alpha (`alpha.T * np.array(im.getchannel('A'))`,
then `im.putalpha(alpha)`); color channels are untouched. The uninitialized
`np.empty` content is instantiated with `0` here (for images with both axes
at least 2 pixels the result does not depend on it). -/
noncomputable def applyMask (c : ℝ) (im : Img) : Img :=
  { width := im.width, height := im.height,
    pix := fun i j =>
      let p := im.pix i j
      { r := p.r, g := p.g, b := p.b,
        a := maskFill c (rGrid im.width im.height i j) 0 * p.a } }

/-- Source line 129: `if self.circ_cut is not None:` gate around the mask. -/
noncomputable def maskStage (cc : Option ℚ) (im : Img) : Img :=
  match cc with
  | some c => applyMask (c : ℝ) im
  | none => im

/-- Source lines 150-153: `PIL.ImageOps.expand(im, border=bw, fill=color)`:
a `bw`-pixel border ring filled with the (opaque) fill color around the
original image. -/
def expand (bw : ℕ) (fill : Color) (im : Img) : Img :=
  { width := im.width + 2 * bw, height := im.height + 2 * bw,
    pix := fun i j =>
      if bw ≤ i ∧ i < bw + im.width ∧ bw ≤ j ∧ j < bw + im.height then
        im.pix (i - bw) (j - bw)
      else
        { r := (fill.r : ℝ), g := (fill.g : ℝ), b := (fill.b : ℝ), a := 1 } }

/-- Source lines 148-153: the border step runs iff `border_color` is set and
`border_type == 'pad'`. (If `border_width` were `None` here the source would
raise from PIL; that corner is modelled as width 0 and is outside every
claim, which fixes a concrete width.) -/
def borderStage (bc : Option Color) (bt : Option String) (bw : Option ℕ)
    (im : Img) : Img :=
  match bc with
  | none => im
  | some col => if bt = some "pad" then expand (bw.getD 0) col im else im

/-! ### Configuration, recompute, set, plot -/

/-- The mutable configuration fields of an `Icon` (all stored attributes
except the derived `final_image`); `circ_cut` is stored already normalized
to a scalar. -/
structure IconConfig where
  image : Option ImageInput
  string : Option String
  col : Option Color
  border_color : Option Color
  cmap : Option Cmap
  border_type : Option String
  border_width : Option ℕ
  make_square : Option Bool
  circ_cut : Option ℚ

/-- The observable state of an `Icon`: its configuration plus the cached
`final_image`. -/
structure IconState where
  cfg : IconConfig
  final_image : Option Img

/-- The stages of `recompute_final_image` that follow the RGBA conversion:
optional square resize, optional radial mask, optional border pad, in
source order. -/
noncomputable def postStages (cfg : IconConfig) (im : Img) : Img :=
  borderStage cfg.border_color cfg.border_type cfg.border_width
    (maskStage cfg.circ_cut (squareStage cfg.make_square im))

/-- Source lines 105-154, as a pure function of the configuration:
`None` image gives no final image; a raw array goes through the scale
heuristic, then the colormap (or direct grayscale interpretation), then the
common RGBA pipeline; a decoded image goes straight to the pipeline. -/
noncomputable def Icon.recompute_final_image (cfg : IconConfig) : Option Img :=
  match cfg.image with
  | none => none
  | some (ImageInput.ndarray arr) =>
      let arr2 := scaleStage arr
      let im := match cfg.cmap with
        | some cm => cmapToImg cm arr2
        | none => grayToImg arr2
      some (postStages cfg (convertRGBA im))
  | some (ImageInput.pil im) => some (postStages cfg (convertRGBA im))

/-- The `circ_cut` argument of `set`: the symbolic strings or a number. -/
inductive CircCutIn where
  | cut
  | cosine
  | num (v : ℚ)

/-- The arguments of one `set` call; `none` is an omitted (or `None`)
argument, which keeps the previous value of the field. -/
structure SetArgs where
  image : Option ImageInput := none
  string : Option String := none
  col : Option Color := none
  border_color : Option Color := none
  cmap : Option Cmap := none
  border_type : Option String := none
  border_width : Option ℕ := none
  make_square : Option Bool := none
  circ_cut : Option CircCutIn := none

/-- Outcome of a `set` call. `invalidParameter` models the
`AssertionError('a numeric circ_cut must be in [0,1]')` — the spec's
`InvalidParameter` — and carries the object state left behind by the
raising call (Python objects keep the mutations made before the raise). -/
inductive SetResult where
  | ok (s : IconState)
  | invalidParameter (s : IconState)

/-- The state left behind by a `set` call, successful or not. -/
def SetResult.state : SetResult → IconState
  | .ok s => s
  | .invalidParameter s => s

/-- Whether a `set` call returned normally. -/
def SetResult.isOk : SetResult → Bool
  | .ok _ => true
  | .invalidParameter _ => false

/-- Source lines 60-91: the eight leading `if arg is not None: self.f = arg
else: self.f = getattr(self, 'f', None)` updates (keep-previous semantics);
`circ_cut` is handled separately by `Icon.set`. -/
def applyArgs (cfg : IconConfig) (a : SetArgs) : IconConfig :=
  { image := a.image.or cfg.image,
    string := a.string.or cfg.string,
    col := a.col.or cfg.col,
    border_color := a.border_color.or cfg.border_color,
    cmap := a.cmap.or cfg.cmap,
    border_type := a.border_type.or cfg.border_type,
    border_width := a.border_width.or cfg.border_width,
    make_square := a.make_square.or cfg.make_square,
    circ_cut := cfg.circ_cut }

/-- Source line 103: the final `self.recompute_final_image()` of a
successful `set`, caching the recomputed image. -/
noncomputable def commit (cfg : IconConfig) : IconState :=
  ⟨cfg, Icon.recompute_final_image cfg⟩

/-- Source lines 54-103 (`Icon.set`): update the eight plain fields, then
normalize `circ_cut` (`'cut'` to 1, `'cosine'` to 0, numbers guarded by
`assert circ_cut <= 1 and circ_cut >= 0`), then recompute. A failing assert
raises after the eight field updates but before `circ_cut` is assigned and
before any recompute. -/
noncomputable def Icon.set (s : IconState) (a : SetArgs) : SetResult :=
  let cfg := applyArgs s.cfg a
  match a.circ_cut with
  | none => SetResult.ok (commit cfg)
  | some CircCutIn.cut => SetResult.ok (commit { cfg with circ_cut := some 1 })
  | some CircCutIn.cosine =>
      SetResult.ok (commit { cfg with circ_cut := some 0 })
  | some (CircCutIn.num v) =>
      if v ≤ 1 ∧ 0 ≤ v then
        SetResult.ok (commit { cfg with circ_cut := some v })
      else SetResult.invalidParameter ⟨cfg, s.final_image⟩

/-- A freshly created Python object before `__init__` runs its `set` call:
no attribute exists, so every `getattr(self, ..., None)` yields `None`. -/
def blankState : IconState :=
  ⟨⟨none, none, none, none, none, none, none, none, none⟩, none⟩

/-- Source lines 48-52 (`Icon.__init__`): construction is a `set` on the
blank object. -/
noncomputable def Icon.init (a : SetArgs) : SetResult := Icon.set blankState a

/-- The arguments `__init__` passes to `set` when the caller omits
everything: the signature defaults `border_type='pad'`, `border_width=2`,
`make_square=False` (and `None` for the rest). -/
def ctorDefaultArgs : SetArgs :=
  { border_type := some "pad", border_width := some 2,
    make_square := some false }

/-- An artist added to the axis by a placement call: an image artist
(`AnnotationBbox` holding the `OffsetImage`) or a text annotation, each
with its anchor and z-order. -/
inductive Artist where
  | imageArtist (x y : ℚ) (zorder : ℚ)
  | textArtist (s : String) (x y : ℚ) (zorder : ℚ)
deriving DecidableEq

/-- The default z-order an `AnnotationBbox` comes with (`ab.zorder` in the
source); its concrete value is irrelevant to the claims, which only relate
the text z-order to it. -/
def abZorder : ℚ := 3

/-- Source lines 156-190 (`Icon.plot`): if a final image exists, add the
image artist and remember its z-order (else z-order 0); if a string exists,
add a centered text annotation at z-order one above. The trailing
`if self.border_color is not None: pass` adds nothing. The returned list
is the sequence of artists added to the axis. -/
def Icon.plot (s : IconState) (x y : ℚ) : List Artist :=
  let imgPart : List Artist × ℚ :=
    match s.final_image with
    | some _ => ([Artist.imageArtist x y abZorder], abZorder)
    | none => ([], 0)
  imgPart.1 ++
    (match s.cfg.string with
     | some t => [Artist.textArtist t x y (imgPart.2 + 1)]
     | none => [])

/-! ### Helper lemmas about the mask math -/

/-- Any member of a list is at most the `foldr max` of the list. -/
theorem le_foldr_max (l : List ℚ) (b x : ℚ) (hx : x ∈ l) :
    x ≤ l.foldr max b := by
  induction l with
  | nil => cases hx
  | cons hd tl ih =>
    rcases List.mem_cons.mp hx with h | h
    · subst h; exact le_max_left _ _
    · exact le_trans (ih h) (le_max_right _ _)

/-- On an axis with at least two pixels, the normalization denominator
`np.max(np.abs(x))` is positive. -/
theorem maxAbsX_pos (n : ℕ) (hn : 2 ≤ n) : 0 < maxAbsX n := by
  have h0 : (0 : ℕ) ∈ List.range n := List.mem_range.mpr (by omega)
  have hmem : |xcoord n 0| ∈ (List.range n).map fun i => |xcoord n i| :=
    List.mem_map_of_mem _ h0
  have hle : |xcoord n 0| ≤ maxAbsX n := le_foldr_max _ 0 _ hmem
  have hcast : (2 : ℚ) ≤ (n : ℚ) := by exact_mod_cast hn
  have hne : xcoord n 0 ≠ 0 := by
    simp only [xcoord, Nat.cast_zero]
    intro h
    nlinarith
  exact lt_of_lt_of_le (abs_pos.mpr hne) hle

/-- For an image with both axes at least 2 pixels wide, no normalization
denominator vanishes and the radius grid holds real values. -/
theorem rGrid_eq (w h i j : ℕ) (hw : 2 ≤ w) (hh : 2 ≤ h) :
    rGrid w h i j = some (rVal w h i j) := by
  rw [rGrid, if_neg]
  push_neg
  exact ⟨(maxAbsX_pos w hw).ne', (maxAbsX_pos h hh).ne'⟩

/-- Core mask lemma: at a real (non-NaN) radius, the three sequential
masked assignments of the source compute exactly the piecewise value the
spec describes, independently of the uninitialized buffer content. -/
theorem maskFill_some_eq (c r init : ℝ) (hc1 : c ≤ 1) :
    maskFill c (some r) init = maskSpecVal c r := by
  simp only [maskFill, maskSpecVal]
  by_cases h1 : 1 < r
  · have hr1 : ¬ r ≤ 1 := not_le.mpr h1
    have h2 : ¬ r ≤ c := fun hrc => absurd h1 (not_lt.mpr (le_trans hrc hc1))
    rw [if_neg (fun hand => hr1 hand.2), if_neg h2, if_neg h2, if_pos h1,
      if_pos h1]
  · by_cases h2 : r ≤ c
    · rw [if_neg (fun hand => absurd h2 (not_le.mpr hand.1)), if_pos h2,
        if_neg h1, if_pos h2]
    · rw [if_pos ⟨not_le.mp h2, not_lt.mp h1⟩, if_neg h1, if_neg h2]

/-- Exactly one of the source's three selection conditions holds at any real
radius, given a cut threshold in [0,1]. -/
theorem mask_trichotomy (c r : ℝ) (hc1 : c ≤ 1) :
    (1 < r ∧ ¬ r ≤ c ∧ ¬(c < r ∧ r ≤ 1)) ∨
    (¬ 1 < r ∧ r ≤ c ∧ ¬(c < r ∧ r ≤ 1)) ∨
    (¬ 1 < r ∧ ¬ r ≤ c ∧ (c < r ∧ r ≤ 1)) := by
  by_cases h1 : 1 < r
  · exact Or.inl ⟨h1, fun hrc => absurd h1 (not_lt.mpr (le_trans hrc hc1)),
      fun hand => absurd h1 (not_lt.mpr hand.2)⟩
  · by_cases h2 : r ≤ c
    · exact Or.inr (Or.inl ⟨h1, h2,
        fun hand => absurd h2 (not_le.mpr hand.1)⟩)
    · exact Or.inr (Or.inr ⟨h1, h2, ⟨not_le.mp h2, not_lt.mp h1⟩⟩)

/-! ### Claim C1 -/

/-- C1: for every image (both axes at least 2 pixels, so that the claim's
per-axis normalization "extreme pixel center maps to plus/minus 1" is
defined), every cut threshold `c` in [0,1] and every pixel, the mask buffer
filled by step 5 of recompute holds exactly the spec's piecewise value at
the pixel's normalized radius — 0 for `r > 1`, 1 for `r ≤ c`, the raised
cosine on `c < r ≤ 1` — regardless of the uninitialized buffer content,
and in the degenerate case `c = 1` every pixel with `r ≤ 1` receives 1
(the taper branch with its zero denominator selects no pixel). -/
theorem C1_mask_formula (c : ℝ) (w h i j : ℕ) (init : ℝ)
    (hc0 : 0 ≤ c) (hc1 : c ≤ 1) (hw : 2 ≤ w) (hh : 2 ≤ h)
    (hi : i < w) (hj : j < h) :
    rGrid w h i j = some (rVal w h i j) ∧
    maskFill c (rGrid w h i j) init = maskSpecVal c (rVal w h i j) ∧
    (c = 1 → rVal w h i j ≤ 1 → maskFill c (rGrid w h i j) init = 1) := by
  have hg := rGrid_eq w h i j hw hh
  refine ⟨hg, ?_, ?_⟩
  · rw [hg]; exact maskFill_some_eq c _ init hc1
  · intro hc hr1
    rw [hg, maskFill_some_eq c _ init hc1, maskSpecVal,
      if_neg (not_lt.mpr hr1), if_pos (hc ▸ hr1)]

/-- C1 witness: the mask formula instantiated on a 2 by 2 image at pixel
(0, 0) with cut threshold 1/2 and buffer content 0. -/
theorem C1_mask_formula_witness :
    rGrid 2 2 0 0 = some (rVal 2 2 0 0) ∧
    maskFill (1 / 2) (rGrid 2 2 0 0) 0 = maskSpecVal (1 / 2) (rVal 2 2 0 0) ∧
    ((1 / 2 : ℝ) = 1 → rVal 2 2 0 0 ≤ 1 →
      maskFill (1 / 2) (rGrid 2 2 0 0) 0 = 1) :=
  C1_mask_formula (1 / 2) 2 2 0 0 0 (by norm_num) (by norm_num)
    (by norm_num) (by norm_num) (by norm_num) (by norm_num)

/-! ### Claim C10 -/

/-- C10 counterexample: the claim quantifies over every image size, but on a
1 by 2 image the x-axis normalization denominator is 0, the radius row is
NaN (`rGrid = none`), none of the three selection conditions holds, and the
mask buffer keeps its uninitialized content — two different buffer contents
yield two different masks, so the mask is not fully defined. -/
theorem C10_uninit_counterexample :
    rGrid 1 2 0 0 = none ∧
    maskFill (1 / 2) (rGrid 1 2 0 0) 42 = 42 ∧
    maskFill (1 / 2) (rGrid 1 2 0 0) 7 = 7 ∧
    maskFill (1 / 2) (rGrid 1 2 0 0) 42 ≠ maskFill (1 / 2) (rGrid 1 2 0 0) 7 := by
  have h0 : maxAbsX 1 = 0 := by norm_num [maxAbsX, xcoord, List.range_succ]
  have hg : rGrid 1 2 0 0 = none := by rw [rGrid, if_pos (Or.inl h0)]
  refine ⟨hg, ?_, ?_, ?_⟩ <;> rw [hg]
  · rfl
  · rfl
  · show (42 : ℝ) ≠ 7
    norm_num

/-- C10 (amended to image sizes with both axes at least 2 pixels, as the
counterexample forces): the three radius conditions `r > 1`, `r ≤ c`,
`c < r ≤ 1` cover every pixel exactly once, the mask value is independent
of the uninitialized buffer content, and when `c = 1` the taper selection
is empty at every pixel. -/
theorem C10_mask_cover (c : ℝ) (w h i j : ℕ)
    (hc0 : 0 ≤ c) (hc1 : c ≤ 1) (hw : 2 ≤ w) (hh : 2 ≤ h) :
    rGrid w h i j = some (rVal w h i j) ∧
    ((1 < rVal w h i j ∧ ¬ rVal w h i j ≤ c ∧
        ¬(c < rVal w h i j ∧ rVal w h i j ≤ 1)) ∨
      (¬ 1 < rVal w h i j ∧ rVal w h i j ≤ c ∧
        ¬(c < rVal w h i j ∧ rVal w h i j ≤ 1)) ∨
      (¬ 1 < rVal w h i j ∧ ¬ rVal w h i j ≤ c ∧
        (c < rVal w h i j ∧ rVal w h i j ≤ 1))) ∧
    (∀ init₁ init₂ : ℝ,
      maskFill c (rGrid w h i j) init₁ = maskFill c (rGrid w h i j) init₂) ∧
    (c = 1 → ¬(c < rVal w h i j ∧ rVal w h i j ≤ 1)) := by
  have hg := rGrid_eq w h i j hw hh
  refine ⟨hg, mask_trichotomy c _ hc1, ?_, ?_⟩
  · intro init₁ init₂
    rw [hg, maskFill_some_eq c _ init₁ hc1, maskFill_some_eq c _ init₂ hc1]
  · rintro hc ⟨hlt, hle⟩
    rw [hc] at hlt
    exact absurd hle (not_le.mpr hlt)

/-- C10 witness: the amended coverage statement instantiated on a 2 by 3
image at pixel (1, 1) with cut threshold 1/2. -/
theorem C10_mask_cover_witness :
    rGrid 2 3 1 1 = some (rVal 2 3 1 1) ∧
    ((1 < rVal 2 3 1 1 ∧ ¬ rVal 2 3 1 1 ≤ (1 / 2 : ℝ) ∧
        ¬((1 / 2 : ℝ) < rVal 2 3 1 1 ∧ rVal 2 3 1 1 ≤ 1)) ∨
      (¬ 1 < rVal 2 3 1 1 ∧ rVal 2 3 1 1 ≤ (1 / 2 : ℝ) ∧
        ¬((1 / 2 : ℝ) < rVal 2 3 1 1 ∧ rVal 2 3 1 1 ≤ 1)) ∨
      (¬ 1 < rVal 2 3 1 1 ∧ ¬ rVal 2 3 1 1 ≤ (1 / 2 : ℝ) ∧
        ((1 / 2 : ℝ) < rVal 2 3 1 1 ∧ rVal 2 3 1 1 ≤ 1))) ∧
    (∀ init₁ init₂ : ℝ,
      maskFill (1 / 2) (rGrid 2 3 1 1) init₁ =
        maskFill (1 / 2) (rGrid 2 3 1 1) init₂) ∧
    ((1 / 2 : ℝ) = 1 → ¬((1 / 2 : ℝ) < rVal 2 3 1 1 ∧ rVal 2 3 1 1 ≤ 1)) :=
  C10_mask_cover (1 / 2) 2 3 1 1 (by norm_num) (by norm_num) (by norm_num)
    (by norm_num)

/-! ### Claim C4 -/

/-- A float32 test array holding the single value 2. -/
def arr32 : NDArr := ⟨DType.float32, [[2]]⟩

/-- A float64 test array holding the single value 2. -/
def arr64 : NDArr := ⟨DType.float64, [[2]]⟩

/-- A configuration whose image is `arr64` and whose other fields are all
unset. -/
def cfgGray : IconConfig :=
  ⟨some (ImageInput.ndarray arr64), none, none, none, none, none, none,
    none, none⟩

/-- C4 counterexample: a float32 array with a value exceeding 1 is of
floating-point type, yet the source's check `dtype == np.float` (float64
only) fails, so the array is left as-is instead of being divided by 255 as
the claim requires. -/
theorem C4_float32_counterexample :
    DType.isFloating arr32.dtype = true ∧
    anyGT1 arr32 = true ∧
    scaleStage arr32 = arr32 ∧
    arr32 ≠ ⟨arr32.dtype, arr32.rows.map (List.map fun v => v / 255)⟩ := by
  refine ⟨rfl, by decide, ?_, by norm_num [arr32, NDArr.mk.injEq]⟩
  rw [scaleStage, if_neg]
  rintro ⟨h, _⟩
  exact absurd h (by decide)

/-- C4 (amended: the dtype condition is `float64` — numpy's `np.float` —
rather than any floating-point type): for a raw-array image with no
colormap, recompute applies the scale heuristic before all further
processing; the array is divided by 255 exactly when its dtype is float64
and some value exceeds 1, and is used as-is otherwise. -/
theorem C4_scale_heuristic (cfg : IconConfig) (a : NDArr)
    (himg : cfg.image = some (ImageInput.ndarray a)) (hcm : cfg.cmap = none) :
    Icon.recompute_final_image cfg
      = some (postStages cfg (convertRGBA (grayToImg (scaleStage a)))) ∧
    (a.dtype = DType.float64 → anyGT1 a = true →
      scaleStage a = ⟨a.dtype, a.rows.map (List.map fun v => v / 255)⟩) ∧
    (a.dtype ≠ DType.float64 ∨ anyGT1 a = false → scaleStage a = a) := by
  refine ⟨?_, ?_, ?_⟩
  · simp only [Icon.recompute_final_image, himg, hcm]
  · intro h1 h2
    rw [scaleStage, if_pos ⟨h1, h2⟩]
  · intro hdis
    rw [scaleStage, if_neg]
    rintro ⟨h1, h2⟩
    rcases hdis with hd | hd
    · exact hd h1
    · rw [hd] at h2
      cases h2

/-- C4 witness: the amended heuristic instantiated on `cfgGray`, whose
float64 array with value 2 is divided by 255. -/
theorem C4_scale_heuristic_witness :
    Icon.recompute_final_image cfgGray
      = some (postStages cfgGray (convertRGBA (grayToImg (scaleStage arr64)))) ∧
    scaleStage arr64 = ⟨arr64.dtype, arr64.rows.map (List.map fun v => v / 255)⟩ := by
  have h := C4_scale_heuristic cfgGray arr64 rfl rfl
  exact ⟨h.1, h.2.1 rfl rfl⟩

/-! ### Claim C5 -/

/-- C5: the border step runs exactly when `border_color` is set and
`border_type` is `'pad'`; when it runs it grows each dimension by
`2 * border_width`, fills every ring pixel with the border color at full
opacity, and keeps the pixels (in particular the alpha values) of the
original area. -/
theorem C5_border_pad (bc : Color) (bt : Option String) (bw : ℕ) (im : Img) :
    borderStage (some bc) bt (some bw) im
      = (if bt = some "pad" then expand bw bc im else im) ∧
    borderStage none bt (some bw) im = im ∧
    (expand bw bc im).width = im.width + 2 * bw ∧
    (expand bw bc im).height = im.height + 2 * bw ∧
    (∀ i j, ¬(bw ≤ i ∧ i < bw + im.width ∧ bw ≤ j ∧ j < bw + im.height) →
      (expand bw bc im).pix i j
        = ⟨(bc.r : ℝ), (bc.g : ℝ), (bc.b : ℝ), 1⟩) ∧
    (∀ i j, i < im.width → j < im.height →
      ((expand bw bc im).pix (bw + i) (bw + j)).a = (im.pix i j).a) := by
  refine ⟨rfl, rfl, rfl, rfl, ?_, ?_⟩
  · intro i j hring
    simp only [expand]
    rw [if_neg hring]
  · intro i j hi hj
    simp only [expand]
    rw [if_pos ⟨Nat.le_add_right bw i, by omega, Nat.le_add_right bw j,
      by omega⟩]
    have h1 : bw + i - bw = i := by omega
    have h2 : bw + j - bw = j := by omega
    rw [h1, h2]

/-- An opaque red border color used in concrete instances. -/
def cRed : Color := ⟨1, 0, 0⟩

/-- A concrete 1 by 1 opaque white test image. -/
def timg : Img := ⟨1, 1, fun _ _ => ⟨1, 1, 1, 1⟩⟩

/-- C5 witness: the border theorem instantiated on the 1 by 1 test image
with a red pad border of width 1, evaluated at a ring pixel and at the
interior pixel. -/
theorem C5_border_pad_witness :
    (expand 1 cRed timg).width = timg.width + 2 * 1 ∧
    (expand 1 cRed timg).pix 0 0
      = ⟨(cRed.r : ℝ), (cRed.g : ℝ), (cRed.b : ℝ), 1⟩ ∧
    ((expand 1 cRed timg).pix (1 + 0) (1 + 0)).a = (timg.pix 0 0).a := by
  refine ⟨(C5_border_pad cRed (some "pad") 1 timg).2.2.1, ?_, ?_⟩
  · exact (C5_border_pad cRed (some "pad") 1 timg).2.2.2.2.1 0 0 (by decide)
  · exact (C5_border_pad cRed (some "pad") 1 timg).2.2.2.2.2 0 0
      (by decide) (by decide)

/-! ### Claim C6 -/

/-- C6: the mask stage multiplies the mask value into the existing alpha
channel rather than replacing it — the resulting alpha of each pixel is the
mask value at that pixel times the pixel's alpha before masking — while the
color channels and the dimensions are unchanged. -/
theorem C6_alpha_multiplied (q : ℚ) (im : Img) (i j : ℕ) :
    maskStage (some q) im = applyMask (q : ℝ) im ∧
    ((applyMask (q : ℝ) im).pix i j).a
      = maskFill (q : ℝ) (rGrid im.width im.height i j) 0 * (im.pix i j).a ∧
    ((applyMask (q : ℝ) im).pix i j).r = (im.pix i j).r ∧
    ((applyMask (q : ℝ) im).pix i j).g = (im.pix i j).g ∧
    ((applyMask (q : ℝ) im).pix i j).b = (im.pix i j).b ∧
    (applyMask (q : ℝ) im).width = im.width ∧
    (applyMask (q : ℝ) im).height = im.height :=
  ⟨rfl, rfl, rfl, rfl, rfl, rfl, rfl⟩

/-! ### Claim C3 -/

/-- A `set` call passing only a numeric `circ_cut`. -/
def onlyCircCut (v : ℚ) : SetArgs := { circ_cut := some (CircCutIn.num v) }

/-- C3: on any icon with a cached final image, `set(circ_cut = v)` with a
numeric `v` outside [0,1] raises the invalid-parameter error, leaves the
whole state (in particular the prior final image) unchanged, and runs no
recompute — the result still carries the old cached image. -/
theorem C3_invalid_circ_cut (s : IconState) (f : Img) (v : ℚ)
    (hf : s.final_image = some f) (hv : v < 0 ∨ 1 < v) :
    Icon.set s (onlyCircCut v) = SetResult.invalidParameter s ∧
    (Icon.set s (onlyCircCut v)).state.final_image = some f := by
  have hne : ¬(v ≤ 1 ∧ 0 ≤ v) := by
    rintro ⟨h1, h2⟩
    rcases hv with hv | hv <;> linarith
  have hmain : Icon.set s (onlyCircCut v) = SetResult.invalidParameter s := by
    simp only [Icon.set, onlyCircCut]
    rw [if_neg hne]
    rfl
  refine ⟨hmain, ?_⟩
  rw [hmain]
  exact hf

/-- A state with the blank configuration but a cached final image. -/
def sWit : IconState := ⟨blankState.cfg, some timg⟩

/-- C3 witness: `set(circ_cut = 3/2)` on a state with a cached image fails
and preserves the state and the cached image. -/
theorem C3_invalid_circ_cut_witness :
    Icon.set sWit (onlyCircCut (3 / 2)) = SetResult.invalidParameter sWit ∧
    (Icon.set sWit (onlyCircCut (3 / 2))).state.final_image = some timg :=
  C3_invalid_circ_cut sWit timg (3 / 2) rfl (Or.inr (by norm_num))

/-! ### Claim C7 -/

/-- C7: `set` normalizes the symbolic `circ_cut` input `'cut'` to the scalar
1 and `'cosine'` to the scalar 0, and the whole resulting state — hence the
mask and the final image — is identical to the one produced by the
corresponding numeric input. -/
theorem C7_symbolic_circ_cut (s : IconState) :
    (Icon.set s { circ_cut := some CircCutIn.cut }).state.cfg.circ_cut
      = some 1 ∧
    (Icon.set s { circ_cut := some CircCutIn.cosine }).state.cfg.circ_cut
      = some 0 ∧
    Icon.set s { circ_cut := some CircCutIn.cut }
      = Icon.set s { circ_cut := some (CircCutIn.num 1) } ∧
    Icon.set s { circ_cut := some CircCutIn.cosine }
      = Icon.set s { circ_cut := some (CircCutIn.num 0) } := by
  refine ⟨rfl, rfl, ?_, ?_⟩
  · simp only [Icon.set]
    rw [if_pos (by norm_num)]
    rfl
  · simp only [Icon.set]
    rw [if_pos (by norm_num)]
    rfl

/-! ### Claim C2 -/

/-- The state of a default-constructed icon (`Icon()`). -/
noncomputable def icon0 : IconState := (Icon.init ctorDefaultArgs).state

/-- A `set` call that supplies a new image together with an invalid numeric
`circ_cut`. -/
def cexArgs : SetArgs :=
  { image := some (ImageInput.pil timg), circ_cut := some (CircCutIn.num 2) }

/-- C2 counterexample: `set(image = timg, circ_cut = 2)` on a freshly
constructed icon fails, but the raising call has already stored the new
image in the configuration while never recomputing — the observable state
has a configuration whose recompute would produce an image, yet the cached
final image is still the old `none`: a stale cache after a public
operation. -/
theorem C2_stale_cache_counterexample :
    Icon.init ctorDefaultArgs = SetResult.ok icon0 ∧
    (Icon.set icon0 cexArgs).isOk = false ∧
    (Icon.set icon0 cexArgs).state.cfg.image = some (ImageInput.pil timg) ∧
    (Icon.set icon0 cexArgs).state.final_image = none ∧
    Icon.recompute_final_image (Icon.set icon0 cexArgs).state.cfg ≠ none := by
  have hset : Icon.set icon0 cexArgs
      = SetResult.invalidParameter
          ⟨applyArgs icon0.cfg cexArgs, icon0.final_image⟩ := by
    simp only [Icon.set, cexArgs]
    rw [if_neg (by norm_num)]
  refine ⟨rfl, ?_, ?_, ?_, ?_⟩
  · rw [hset]; rfl
  · rw [hset]; rfl
  · rw [hset]; rfl
  · rw [hset]
    exact Option.some_ne_none _

/-- C2 (amended: the invariant holds after every successful public
operation; a failed `set` may leave already-mutated configuration fields
with the stale cached image, as the counterexample shows): whenever `set`
returns normally, the cached final image equals the recompute of the
resulting configuration. -/
theorem C2_cache_consistent (s : IconState) (a : SetArgs) (s2 : IconState)
    (h : Icon.set s a = SetResult.ok s2) :
    s2.final_image = Icon.recompute_final_image s2.cfg := by
  rcases hcc : a.circ_cut with _ | ci
  · simp only [Icon.set, hcc] at h
    cases h
    rfl
  · cases ci with
    | cut =>
      simp only [Icon.set, hcc] at h
      cases h
      rfl
    | cosine =>
      simp only [Icon.set, hcc] at h
      cases h
      rfl
    | num v =>
      simp only [Icon.set, hcc] at h
      by_cases hv : v ≤ 1 ∧ 0 ≤ v
      · rw [if_pos hv] at h
        cases h
        rfl
      · rw [if_neg hv] at h
        cases h

/-- C2 witness: a default construction succeeds and its cached final image
equals the recompute of its configuration. -/
theorem C2_cache_consistent_witness :
    icon0.final_image = Icon.recompute_final_image icon0.cfg :=
  C2_cache_consistent blankState ctorDefaultArgs icon0 rfl

/-! ### Claim C9 -/

/-- C9 counterexample: a default construction (`Icon()`) does not leave
`border_type`, `border_width` and `make_square` unset — `__init__` passes
its signature defaults `'pad'`, `2` and `False` to `set`. -/
theorem C9_ctor_defaults_counterexample :
    (Icon.init ctorDefaultArgs).state.cfg.border_type = some "pad" ∧
    (Icon.init ctorDefaultArgs).state.cfg.border_width = some 2 ∧
    (Icon.init ctorDefaultArgs).state.cfg.make_square = some false ∧
    (some "pad" : Option String) ≠ none := by
  exact ⟨rfl, rfl, rfl, by simp⟩

/-- C9 (amended: omitted constructor fields default to the signature
defaults — `border_type = 'pad'`, `border_width = 2`,
`make_square = False` — while the remaining omitted fields default to
unset): the full state of a default-constructed icon. -/
theorem C9_ctor_defaults :
    Icon.init ctorDefaultArgs
      = SetResult.ok ⟨⟨none, none, none, none, none, some "pad", some 2,
          some false, none⟩, none⟩ := rfl

/-! ### Claim C8 -/

/-- C8: a placement call on an icon with no final image and no string adds
nothing; with only a string it adds exactly one text annotation and no
image artist; with both it adds the image artist and the text annotation
with z-order exactly one above the image's. -/
theorem C8_plot_artists (s : IconState) (x y : ℚ) :
    (s.final_image = none → s.cfg.string = none → Icon.plot s x y = []) ∧
    (∀ t, s.final_image = none → s.cfg.string = some t →
      Icon.plot s x y = [Artist.textArtist t x y (0 + 1)]) ∧
    (∀ im t, s.final_image = some im → s.cfg.string = some t →
      Icon.plot s x y
        = [Artist.imageArtist x y abZorder,
            Artist.textArtist t x y (abZorder + 1)]) := by
  refine ⟨?_, ?_, ?_⟩
  · intro h1 h2
    simp [Icon.plot, h1, h2]
  · intro t h1 h2
    simp [Icon.plot, h1, h2]
  · intro im t h1 h2
    simp [Icon.plot, h1, h2]

/-- A text-only icon state (string `A`, no image). -/
def sTextOnly : IconState :=
  ⟨⟨none, some "A", none, none, none, none, none, none, none⟩, none⟩

/-- An icon state with both a final image and a string. -/
def sBoth : IconState :=
  ⟨⟨none, some "A", none, none, none, none, none, none, none⟩, some timg⟩

/-- C8 witness: the placement theorem instantiated on an empty icon, a
text-only icon, and an icon with both image and string. -/
theorem C8_plot_artists_witness :
    Icon.plot blankState 0 0 = [] ∧
    Icon.plot sTextOnly 0 0 = [Artist.textArtist "A" 0 0 (0 + 1)] ∧
    Icon.plot sBoth 0 0
      = [Artist.imageArtist 0 0 abZorder,
          Artist.textArtist "A" 0 0 (abZorder + 1)] :=
  ⟨(C8_plot_artists blankState 0 0).1 rfl rfl,
    (C8_plot_artists sTextOnly 0 0).2.1 "A" rfl rfl,
    (C8_plot_artists sBoth 0 0).2.2 timg "A" rfl rfl⟩
